import Mathlib

/-!
Shallow embedding of the search-resolution-and-validation pipeline of the
vue-weather-project repository (the `useSearch` composable, the GeoDB client
and the OpenWeather validator), together with theorems settling the frozen
claims about it.

Sources embedded:
- `src/composables/useSearch.ts` (gated-stage revision): `isValidSearchQuery`,
  `pushIfLatest`, `sortByValidation`, `convertCitiesToUnified`,
  `convertCountriesToUnified`, `tryPersistentApiSearch`, `fastValidateBatch`,
  the four-stage body of `performSearch` and its finalization/catch writers.
- `src/api/openWeather.ts` (enhanced revision, the one whose
  `validateSuggestion(suggestion, signal)` signature matches the call sites in
  `useSearch.ts`): `validateSuggestion`.

Network effects are modelled by oracle parameters (the outcome a fetch would
produce), JavaScript numbers by `ℚ`, and the reactive refs by explicit record
state.
-/

namespace VueWeather

/-! ### Character classes used by the `isValidSearchQuery` regexes -/

/-- The apostrophe character (code point 39), a member of the
`[a-zA-Z\s\-']` class of the query regex. -/
def apostChar : Char := Char.ofNat 39

/-- `[a-zA-Z]`. -/
def isAsciiLetter (c : Char) : Bool :=
  ('a' ≤ c && c ≤ 'z') || ('A' ≤ c && c ≤ 'Z')

/-- JavaScript `\s` restricted to the ASCII whitespace characters
(space, tab, line feed, vertical tab, form feed, carriage return);
JS `\s` also covers Unicode space separators, which no claim exercises. -/
def isJsSpace (c : Char) : Bool :=
  c == ' ' || c == Char.ofNat 9 || c == Char.ofNat 10 ||
  c == Char.ofNat 11 || c == Char.ofNat 12 || c == Char.ofNat 13

/-- The character class `[a-zA-Z\s\-']` of the query validity regex. -/
def validQueryChar (c : Char) : Bool :=
  isAsciiLetter c || isJsSpace c || c == '-' || c == apostChar

/-- The vowel class `[aeiouAEIOU]`. -/
def isVowelChar (c : Char) : Bool :=
  let d := c.toLower
  d == 'a' || d == 'e' || d == 'i' || d == 'o' || d == 'u'

/-- The class `[bcdfg-np-tv-z]` (with its upper-case twin
`[BCDFG-NP-TV-Z]`), as written in the source: the range `g-n`
makes `i` a member of this "consonant" class. -/
def consClassChar (c : Char) : Bool :=
  let d := c.toLower
  d == 'b' || d == 'c' || d == 'd' || d == 'f' ||
  ('g' ≤ d && d ≤ 'n') || ('p' ≤ d && d ≤ 't') || ('v' ≤ d && d ≤ 'z')

/-- Case-insensitive character equality, the semantics the `i` flag gives to
back-references. -/
def charEqCI (a b : Char) : Bool := a.toLower == b.toLower

/-- ECMAScript line terminators (LF, CR, U+2028, U+2029): the characters the
`.` atom of a regex without the `s` flag can never match. -/
def isLineTerm (c : Char) : Bool :=
  c == Char.ofNat 10 || c == Char.ofNat 13 ||
  c == Char.ofNat 8232 || c == Char.ofNat 8233

/-- `/(.)\1{2,}/i`: some character occurs at least three times consecutively
(case-insensitively).  The captured `(.)` cannot be a line terminator; the
back-references then cannot be one either, since no other character
case-folds to a line terminator. -/
def tripleRepeat : List Char → Bool
  | a :: b :: c :: rest =>
    (!(isLineTerm a) && charEqCI a b && charEqCI b c) || tripleRepeat (b :: c :: rest)
  | _ => false

/-- `/^([a-z])\1+$/i`: the whole string is one letter repeated (length ≥ 2). -/
def singleLetterRun : List Char → Bool
  | a :: b :: rest => isAsciiLetter a && (b :: rest).all (charEqCI a)
  | _ => false

/-- Case-insensitive "starts with" over character lists. -/
def startsWithCI : List Char → List Char → Bool
  | [], _ => true
  | _ :: _, [] => false
  | p :: ps, c :: cs => charEqCI p c && startsWithCI ps cs

/-- `query` starts (case-insensitively) with one of the given words. -/
def kbAny (pats : List String) (s : List Char) : Bool :=
  pats.any (fun p => startsWithCI p.data s)

/-- The word list of `/^(qwe|asd|zxc|qaz|wsx|qwer|asdf|zxcv)/i`. -/
def kbPats1 : List String :=
  ["qwe", "asd", "zxc", "qaz", "wsx", "qwer", "asdf", "zxcv"]

/-- The word list of `/^(test|asdf|hjkl|poiu|mnbv|tyui)/i`. -/
def kbPats2 : List String :=
  ["test", "asdf", "hjkl", "poiu", "mnbv", "tyui"]

/-- `/^(.)\1(.)\2+$/i`: a doubled pair, i.e. a character twice followed by a
second character at least twice (shape `xxyy⁺`), case-insensitively; each
captured `(.)` excludes line terminators. -/
def doubledPair : List Char → Bool
  | a :: b :: c :: d :: rest =>
    !(isLineTerm a) && !(isLineTerm c) && charEqCI a b && (d :: rest).all (charEqCI c)
  | _ => false

/-- `/^[<row>]+$/i`: the whole (non-empty) string stays inside one keyboard
row. -/
def rowHit (row : String) (s : List Char) : Bool :=
  !s.isEmpty && s.all (fun c => row.data.contains c.toLower)

def topRow : String := "qwertyuiop"
def midRow : String := "asdfghjkl"
def botRow : String := "zxcvbnm"

/-- `/^[aeiou]{n,}$/`-style check: the whole string is vowels and has length
at least `n`. -/
def allVowelsGe (n : ℕ) (s : List Char) : Bool :=
  decide (n ≤ s.length) && s.all isVowelChar

/-- `/^[bcdfg-np-tv-z]{n,}$/`-style check for the consonant class. -/
def allConsGe (n : ℕ) (s : List Char) : Bool :=
  decide (n ≤ s.length) && s.all consClassChar

/-- The twelve `gibberishPatterns` of `isValidSearchQuery`, in source order,
combined with `Array.some`. -/
def gibberishCheck (s : List Char) : Bool :=
  allVowelsGe 3 s || allConsGe 4 s || tripleRepeat s || singleLetterRun s ||
  kbAny kbPats1 s || kbAny kbPats2 s || doubledPair s ||
  rowHit topRow s || rowHit midRow s || rowHit botRow s ||
  allVowelsGe 2 s || allConsGe 3 s

/-- `/^[\s\-]|[\s\-]$/`: the string starts or ends with whitespace or a
hyphen. -/
def edgeCheck (s : List Char) : Bool :=
  match s.head?, s.getLast? with
  | some a, some b => (isJsSpace a || a == '-') || (isJsSpace b || b == '-')
  | _, _ => false

/-- `isValidSearchQuery` from `useSearch.ts`, early returns rendered as an
if-chain.  The `!query` falsiness test is subsumed by the length test
(an empty string has length 0 < 2). -/
def isValidSearchQuery (q : String) : Bool :=
  let s := q.data
  if s.length < 2 then false
  else if !(s.all validQueryChar) then false
  else if gibberishCheck s then false
  else if decide (2 < s.length) && (!(s.any isVowelChar) || !(s.any consClassChar)) then false
  else if edgeCheck s then false
  else if decide (50 < s.length) then false
  else true

/-! ### Claim-side predicates for the Input Guard (C3)

`specValidQueryClaim` follows the claim C3 exactly as frozen (runs of three
vowels, runs of four consonants, genuinely alternating two-character
patterns).  `specValidQueryAmended` is the amended rule list that the code
actually implements. -/

/-- A run of at least three consecutive characters satisfying `p`. -/
def hasRunGe3 (p : Char → Bool) : List Char → Bool
  | a :: b :: c :: rest => (p a && p b && p c) || hasRunGe3 p (b :: c :: rest)
  | _ => false

/-- A run of at least four consecutive characters satisfying `p`. -/
def hasRunGe4 (p : Char → Bool) : List Char → Bool
  | a :: b :: c :: d :: rest =>
    (p a && p b && p c && p d) || hasRunGe4 p (b :: c :: d :: rest)
  | _ => false

/-- Helper: the list alternates `x, y, x, y, …`. -/
def altAux (x y : Char) : List Char → Bool
  | [] => true
  | c :: rest => c == x && altAux y x rest

/-- The claim reading of "alternating two-character patterns repeated ≥ 2
times": the whole string is `xyxy…` with length at least 4. -/
def alternating2 (s : List Char) : Bool :=
  match s with
  | a :: b :: c :: d :: rest => altAux a b (a :: b :: c :: d :: rest)
  | _ => false

/-- The gibberish heuristics exactly as the claim C3 words them. -/
def specGibberishClaim (s : List Char) : Bool :=
  hasRunGe3 isVowelChar s || hasRunGe4 consClassChar s ||
  tripleRepeat s || singleLetterRun s ||
  kbAny (kbPats1 ++ kbPats2) s || alternating2 s ||
  rowHit topRow s || rowHit midRow s || rowHit botRow s

/-- Query validity as the claim C3 states it: none of the listed rejection
rules applies. -/
def specValidQueryClaim (q : String) : Bool :=
  let s := q.data
  decide (2 ≤ s.length) &&
  s.all validQueryChar &&
  !(specGibberishClaim s) &&
  (!(decide (2 < s.length)) || (s.any isVowelChar && s.any consClassChar)) &&
  !(edgeCheck s) &&
  decide (s.length ≤ 50)

/-- The amended gibberish rule list: whole-string all-vowel checks start at
length 2, whole-string consonant-class checks at length 3 (the class counting
`i` as a consonant), the "alternating" pattern is really the doubled pair
`xxyy⁺`, and the keyboard/mash word lists are combined. -/
def specGibberishAmended (s : List Char) : Bool :=
  allVowelsGe 2 s || allConsGe 3 s ||
  tripleRepeat s || singleLetterRun s ||
  kbAny (kbPats1 ++ kbPats2) s || doubledPair s ||
  rowHit topRow s || rowHit midRow s || rowHit botRow s

/-- Query validity per the amended claim: the rejection rules with the
corrected gibberish list. -/
def specValidQueryAmended (q : String) : Bool :=
  let s := q.data
  decide (2 ≤ s.length) &&
  s.all validQueryChar &&
  !(specGibberishAmended s) &&
  (!(decide (2 < s.length)) || (s.any isVowelChar && s.any consClassChar)) &&
  !(edgeCheck s) &&
  decide (s.length ≤ 50)

/-! ### Data model: suggestions

`UnifiedSuggestion` mirrors the TypeScript interface; optional fields become
`Option`, JavaScript numbers become `ℚ`, and the optional `validating` /
`validated` booleans (absent = falsy) become `Bool` fields. -/

inductive SuggType
  | city
  | country
deriving DecidableEq, Repr

structure UnifiedSuggestion where
  id : String
  name : String
  displayName : String
  type : SuggType
  country : Option String := none
  countryCode : Option String := none
  capital : Option String := none
  lat : Option ℚ := none
  lon : Option ℚ := none
  validating : Bool := false
  validated : Bool := false
deriving DecidableEq, Repr

/-- Raw GeoDB city record (the fields `convertCitiesToUnified` reads). -/
structure CitySuggestion where
  id : ℕ
  name : String
  country : String
  countryCode : String
  latitude : ℚ
  longitude : ℚ
deriving DecidableEq, Repr

/-- Raw GeoDB country record (the fields `convertCountriesToUnified` reads). -/
structure CountrySuggestion where
  code : String
  name : String
  capital : Option String := none
deriving DecidableEq, Repr

/-- `convertCitiesToUnified` from `useSearch.ts`. -/
def convertCitiesToUnified (cities : List CitySuggestion) : List UnifiedSuggestion :=
  cities.map (fun city =>
    { id := "city-" ++ toString city.id
      name := city.name
      displayName := city.name ++ ", " ++ city.country
      type := SuggType.city
      country := some city.country
      countryCode := some city.countryCode
      lat := some city.latitude
      lon := some city.longitude })

/-- `convertCountriesToUnified` from `useSearch.ts`. -/
def convertCountriesToUnified (countries : List CountrySuggestion) : List UnifiedSuggestion :=
  countries.map (fun country =>
    { id := "country-" ++ country.code
      name := country.name
      displayName := country.name
      type := SuggType.country
      countryCode := some country.code
      capital := country.capital })

/-! ### `sortByValidation`

JavaScript `Array.prototype.sort` with the comparator of `useSearch.ts` is a
stable sort under the total preorder "weight, then lower-cased display name";
we model it with the (stable) insertion sort under that preorder.
`localeCompare` is modelled as code-unit string order. -/

/-- The comparator weight: validated 0, validating 1, else 2. -/
def suggWeight (s : UnifiedSuggestion) : ℕ :=
  if s.validated then 0 else if s.validating then 1 else 2

/-- `(a.displayName || a.name).toLowerCase()`: an empty `displayName` is falsy,
so the name is used instead. -/
def dispKey (s : UnifiedSuggestion) : String :=
  (if s.displayName = "" then s.name else s.displayName).toLower

/-- The "a sorts no later than b" relation induced by the comparator. -/
def suggLE (a b : UnifiedSuggestion) : Prop :=
  suggWeight a < suggWeight b ∨ (suggWeight a = suggWeight b ∧ dispKey a ≤ dispKey b)

instance : DecidableRel suggLE := fun a b => by
  unfold suggLE
  exact inferInstance

/-- `sortByValidation` from `useSearch.ts`. -/
def sortByValidation (arr : List UnifiedSuggestion) : List UnifiedSuggestion :=
  arr.insertionSort suggLE

/-! ### Weather validation (`validateSuggestion`, enhanced `openWeather.ts`)

The network is modelled by the outcome the single `fetch` would have: a
parsed response, a non-ok HTTP status, an abort of the cancellation signal, or
any other thrown failure.  JSON field presence/type checks become `Option`
fields. -/

/-- The parts of the weather JSON body that `validateSuggestion` inspects.
`none` models a missing field or one of the wrong type. -/
structure WeatherResponse where
  weather : Option (List String) := none
  mainTemp : Option ℚ := none
  coord : Option (ℚ × ℚ) := none
  name : Option String := none
deriving DecidableEq, Repr

/-- Outcome of the weather `fetch` for one candidate. -/
inductive FetchOutcome
  | ok (resp : WeatherResponse)
  | httpError
  | aborted
  | netFailure
deriving DecidableEq, Repr

/-- The request `validateSuggestion` would issue. -/
inductive WeatherQuery
  | byCoord (lat lon : ℚ)
  | byName (q : String)
deriving DecidableEq, Repr

/-- JavaScript falsiness of an optional number: missing or zero.
(`NaN` is falsy too but is not representable in `ℚ`.) -/
def falsyNum : Option ℚ → Bool
  | none => true
  | some x => x == 0

/-- The truthiness of `str.trim()` (equivalently `str.trim().length > 0`):
some character of the string is not whitespace. -/
def nonBlank (s : String) : Bool := s.data.any (fun c => !c.isWhitespace)

/-- The request construction of `validateSuggestion`: cities need truthy
`lat` and `lon` (the source tests `!suggestion.lat || !suggestion.lon`, so a
zero coordinate aborts with no request); countries query by a present,
non-blank capital, else by name.  `none` means `validateSuggestion` returns
`false` before any fetch. -/
def weatherRequestOf (s : UnifiedSuggestion) : Option WeatherQuery :=
  if s.type = SuggType.city then
    if falsyNum s.lat || falsyNum s.lon then none
    else some (WeatherQuery.byCoord ((s.lat).getD 0) ((s.lon).getD 0))
  else
    match s.capital with
    | some cap => if nonBlank cap then some (WeatherQuery.byName cap)
                  else some (WeatherQuery.byName s.name)
    | none => some (WeatherQuery.byName s.name)

/-- `validateSuggestion(suggestion, signal)` from the enhanced
`openWeather.ts`.  Every internal failure (non-ok status, abort, thrown
error) resolves to `false`; on a parsed body the four availability checks
run, and city candidates additionally get the 0.5° coordinate-tolerance
check.  The `getD 0` defaults mirror the non-null assertions
`suggestion.lat!` / `data.coord.lat`, which the guards make unreachable. -/
def validateSuggestion (s : UnifiedSuggestion) (outcome : FetchOutcome) : Bool :=
  match weatherRequestOf s with
  | none => false
  | some _ =>
    match outcome with
    | FetchOutcome.httpError => false
    | FetchOutcome.aborted => false
    | FetchOutcome.netFailure => false
    | FetchOutcome.ok data =>
      let hasWeatherData := match data.weather with
        | some l => !l.isEmpty
        | none => false
      let hasMainTemp := data.mainTemp.isSome
      let hasCoordinates := data.coord.isSome
      let hasName := match data.name with
        | some n => nonBlank n
        | none => false
      let isValid := hasWeatherData && hasMainTemp && hasCoordinates && hasName
      if isValid && s.type = SuggType.city then
        let rc := data.coord.getD (0, 0)
        let latDiff := |rc.1 - (s.lat).getD 0|
        let lonDiff := |rc.2 - (s.lon).getD 0|
        if latDiff > 1/2 || lonDiff > 1/2 then false else isValid
      else isValid

/-- Claim-side city validity (the conditions claim C2 lists): non-empty
condition list, numeric temperature, numeric response coordinates within 0.5°
of the candidate's coordinates in both axes, and a non-empty name. -/
def specCityValid (s : UnifiedSuggestion) (data : WeatherResponse) : Bool :=
  (match data.weather with
    | some l => !l.isEmpty
    | none => false) &&
  data.mainTemp.isSome &&
  (match data.coord, s.lat, s.lon with
    | some (rla, rlo), some la, some lo =>
      decide (|rla - la| ≤ 1/2) && decide (|rlo - lo| ≤ 1/2)
    | _, _, _ => false) &&
  (match data.name with
    | some n => nonBlank n
    | none => false)

/-! ### The weather-validation cache (`fastValidateBatch`)

The cache key `city:lat.toFixed(2),lon.toFixed(2)` / `country:lowercased
name` is modelled by an inductive key carrying the coordinates scaled by 100
and rounded (the claim's "coordinate-rounded-to-2-decimals"). -/

inductive ValidationCacheKey
  | cityKey (lat100 lon100 : ℤ)
  | countryKey (name : String)
deriving DecidableEq, Repr

/-- `Map.get`, modelled over an association list (insertions are conses, so
the newest binding for a key wins). -/
def alookup {κ ν : Type} [DecidableEq κ] (k : κ) : List (κ × ν) → Option ν
  | [] => none
  | (k', v) :: rest => if k' = k then some v else alookup k rest

/-- Rounding of `toFixed(2)` scaled to an integer: nearest multiple of a
hundredth, ties upward (JavaScript rounds ties away from zero; the two agree
off ties and on every fixture here). -/
def round2dec (x : ℚ) : ℤ := (x * 100 + 1 / 2).floor

/-- The cache-key construction at the top of `fastValidateBatch`:
city candidates with both coordinates present key by rounded coordinates,
everything else keys by lower-cased name. -/
def validationCacheKey (c : UnifiedSuggestion) : ValidationCacheKey :=
  match c.type, c.lat, c.lon with
  | SuggType.city, some la, some lo =>
    ValidationCacheKey.cityKey (round2dec la) (round2dec lo)
  | _, _, _ => ValidationCacheKey.countryKey c.name.toLower

/-- One candidate's step of `fastValidateBatch`: consult the cache; on a miss
run `validateSuggestion` (which never throws — an abort resolves to `false`)
and record its boolean outcome under the candidate's key.  Returns the kept
candidate (if valid) and the updated cache. -/
def fastValidateStep (c : UnifiedSuggestion) (outcome : FetchOutcome)
    (cache : List (ValidationCacheKey × Bool)) :
    Option UnifiedSuggestion × List (ValidationCacheKey × Bool) :=
  let key := validationCacheKey c
  match alookup key cache with
  | some b => (if b then some c else none, cache)
  | none =>
    let ok := validateSuggestion c outcome
    (if ok then some c else none, (key, ok) :: cache)

/-! ### `tryPersistentApiSearch` — the retry wrapper

One call of the wrapped search function is an `AttemptOutcome`; the jitter
draws `Math.floor(Math.random() * 250)` / `* 150` become oracle functions of
the attempt number.  The source distinguishes only "rate limited"
(`error.code === 'RATE_LIMIT'` or a message containing 429) from every other
thrown error; an `AbortError` raised by a cancelled signal lands in the
generic branch. -/

inductive AttemptOutcome (α : Type)
  | ok (data : List α)
  | rateLimited (retryAfterMs : Option ℕ)
  | aborted
  | netError
deriving DecidableEq, Repr

/-- Whether the attempt threw (anything but a resolved result). -/
def AttemptOutcome.isFailure {α : Type} : AttemptOutcome α → Bool
  | AttemptOutcome.ok _ => false
  | _ => true

/-- The `waitMs` computation of the catch handler of
`tryPersistentApiSearch` for a failed attempt. -/
def backoffWaitMs {α : Type} (f : AttemptOutcome α) (attempt jRate jNet : ℕ) : ℕ :=
  match f with
  | AttemptOutcome.rateLimited hint => min (hint.getD (2 ^ attempt * 500 + jRate)) 5000
  | _ => min (2 ^ attempt * 300 + jNet) 3000

/-- Result of the retry wrapper: the `{status, data}` record plus the trace
instrumentation we reason about (attempts consumed, sleeps performed). -/
structure RetryResult (α : Type) where
  success : Bool
  data : List α
  attemptsUsed : ℕ
  waits : List ℕ
deriving DecidableEq, Repr

/-- The attempt loop of `tryPersistentApiSearch`: `attempt` is the 1-based
loop counter, `rem` the attempts still allowed.  A sleep happens only when
another attempt remains (`attempt < maxAttempts`). -/
def retryGo {α : Type} (o : ℕ → AttemptOutcome α) (jR jN : ℕ → ℕ) :
    ℕ → ℕ → RetryResult α
  | _, 0 => { success := false, data := [], attemptsUsed := 0, waits := [] }
  | attempt, r + 1 =>
    match o attempt with
    | AttemptOutcome.ok data =>
      { success := true, data := data, attemptsUsed := 1, waits := [] }
    | f =>
      let w := backoffWaitMs f attempt (jR attempt) (jN attempt)
      if r = 0 then
        { success := false, data := [], attemptsUsed := 1, waits := [] }
      else
        let rest := retryGo o jR jN (attempt + 1) r
        { success := rest.success
          data := rest.data
          attemptsUsed := rest.attemptsUsed + 1
          waits := w :: rest.waits }

/-- `tryPersistentApiSearch` with its default `maxAttempts = 3`. -/
def tryPersistentApiSearch {α : Type} (o : ℕ → AttemptOutcome α) (jR jN : ℕ → ℕ) :
    RetryResult α :=
  retryGo o jR jN 1 3

/-- The per-stage result consumed by `performSearch`
(`{status: 'success'|'error', data}`). -/
inductive StageResult (α : Type)
  | success (data : List α)
  | error
deriving DecidableEq, Repr

/-- Collapse of a `RetryResult` to what `performSearch` looks at. -/
def RetryResult.toStage {α : Type} (r : RetryResult α) : StageResult α :=
  if r.success then StageResult.success r.data else StageResult.error

/-! ### The `performSearch` orchestration state

`GlobalState` bundles the reactive refs, the module-level generation counter
and caches of one `useSearch()` instance, plus the generation-local
accumulator `allSuggestions` and two instrumentation trails (which stages
entered their branch, which called the network). -/

inductive SearchStatus
  | idle
  | fetching
  | success
  | no_results
  | error
deriving DecidableEq, Repr

structure GlobalState where
  currentSearchId : ℕ
  suggestionsPub : List UnifiedSuggestion
  searchStatus : SearchStatus
  searchError : Option String
  allSuggestions : List UnifiedSuggestion
  cityApiCache : List (String × List CitySuggestion)
  countryApiCache : List (String × List CountrySuggestion)
  invoked : List ℕ
  netCalls : List ℕ
deriving DecidableEq, Repr

/-- `pushIfLatest` from `performSearch`: a no-op for a stale generation,
otherwise de-duplicate the incoming batch against the accumulated ids, and
if anything new arrived append it and publish the re-sorted list. -/
def pushIfLatest (thisSearchId : ℕ) (items : List UnifiedSuggestion)
    (st : GlobalState) : GlobalState :=
  if thisSearchId ≠ st.currentSearchId then st
  else
    let seen := st.allSuggestions.map (fun s => s.id)
    let newOnes := items.filter (fun it => !(seen.contains it.id))
    if newOnes.isEmpty then st
    else
      { st with
        allSuggestions := st.allSuggestions ++ newOnes
        suggestionsPub := sortByValidation (st.allSuggestions ++ newOnes) }

/-- The background validation-completion callback of each stage: a no-op for
a stale generation, otherwise flip the matched ids to `validated` and clear
every `validating` badge, re-sort and re-publish. -/
def validationFlip (thisSearchId : ℕ) (validIds : List String)
    (st : GlobalState) : GlobalState :=
  if thisSearchId ≠ st.currentSearchId then st
  else
    { st with
      suggestionsPub := sortByValidation (st.suggestionsPub.map (fun s =>
        if validIds.contains s.id then { s with validating := false, validated := true }
        else { s with validating := false })) }

/-- The finalization at the end of `performSearch`: a no-op for a stale
generation, otherwise publish `success` or `no_results` depending on the
published list. -/
def finalizeSearch (thisSearchId : ℕ) (st : GlobalState) : GlobalState :=
  if thisSearchId ≠ st.currentSearchId then st
  else if !st.suggestionsPub.isEmpty then { st with searchStatus := SearchStatus.success }
  else { st with suggestionsPub := [], searchStatus := SearchStatus.no_results }

/-- The catch handler of `performSearch`: a no-op for a stale generation,
otherwise error status, message, and a cleared list. -/
def catchWrite (thisSearchId : ℕ) (msg : String) (st : GlobalState) : GlobalState :=
  if thisSearchId ≠ st.currentSearchId then st
  else
    { st with
      searchError := some msg
      searchStatus := SearchStatus.error
      suggestionsPub := [] }

/-- The prologue of `performSearch` after the guard passes: bump the
generation counter (`++currentSearchId`) and set `fetching`; the local
accumulator and the instrumentation trails start empty. -/
def beginSearch (st : GlobalState) : GlobalState × ℕ :=
  let thisSearchId := st.currentSearchId + 1
  ({ st with
      currentSearchId := thisSearchId
      searchStatus := SearchStatus.fetching
      searchError := none
      allSuggestions := []
      invoked := []
      netCalls := [] }, thisSearchId)

/-- The four stage results an oracle hands a run (each the collapsed result
of the wrapped `tryPersistentApiSearch` call the stage would make on a cache
miss). -/
structure StageOracle where
  cities1 : StageResult CitySuggestion
  countries2 : StageResult CountrySuggestion
  cities3 : StageResult CitySuggestion
  countries4 : StageResult CountrySuggestion
deriving DecidableEq, Repr

/-- The stage-1 result as `performSearch` computes it: the cached raw
response if present, else the network result. -/
def stage1ResultOf (q : String) (o : StageOracle) (st : GlobalState) :
    StageResult CitySuggestion :=
  match alookup q st.cityApiCache with
  | some d => StageResult.success d
  | none => o.cities1

/-- Stage 1 (prefix cities): consult the cache, call the network only on a
miss, cache a successful non-empty raw response, convert, mark `validating`
and push. -/
def stage1Step (q : String) (res : StageResult CitySuggestion) (thisSearchId : ℕ)
    (st : GlobalState) : GlobalState :=
  let cached := alookup q st.cityApiCache
  let st := { st with invoked := st.invoked ++ [1] }
  let rs : StageResult CitySuggestion × GlobalState :=
    match cached with
    | some d => (StageResult.success d, st)
    | none => (res, { st with netCalls := st.netCalls ++ [1] })
  match rs.1 with
  | StageResult.success data =>
    if data.isEmpty then rs.2
    else
      let candidates := convertCitiesToUnified data
      let st2 := if cached.isNone
        then { rs.2 with cityApiCache := (q, data) :: rs.2.cityApiCache }
        else rs.2
      pushIfLatest thisSearchId (candidates.map (fun c => { c with validating := true })) st2
  | StageResult.error => rs.2

/-- Stage 2 (prefix countries): same structure as stage 1 over the country
cache. -/
def stage2Step (q : String) (res : StageResult CountrySuggestion) (thisSearchId : ℕ)
    (st : GlobalState) : GlobalState :=
  let cached := alookup q st.countryApiCache
  let st := { st with invoked := st.invoked ++ [2] }
  let rs : StageResult CountrySuggestion × GlobalState :=
    match cached with
    | some d => (StageResult.success d, st)
    | none => (res, { st with netCalls := st.netCalls ++ [2] })
  match rs.1 with
  | StageResult.success data =>
    if data.isEmpty then rs.2
    else
      let candidates := convertCountriesToUnified data
      let st2 := if cached.isNone
        then { rs.2 with countryApiCache := (q, data) :: rs.2.countryApiCache }
        else rs.2
      pushIfLatest thisSearchId (candidates.map (fun c => { c with validating := true })) st2
  | StageResult.error => rs.2

/-- Stage 3 (exact cities): always a network call — this fallback has no
cache in the source — then convert, mark and push. -/
def stage3Step (_q : String) (res : StageResult CitySuggestion) (thisSearchId : ℕ)
    (st : GlobalState) : GlobalState :=
  let st := { st with invoked := st.invoked ++ [3], netCalls := st.netCalls ++ [3] }
  match res with
  | StageResult.success data =>
    if data.isEmpty then st
    else
      let candidates := convertCitiesToUnified data
      pushIfLatest thisSearchId (candidates.map (fun c => { c with validating := true })) st
  | StageResult.error => st

/-- Stage 4 (exact countries): always a network call — no cache in the
source — then convert, mark and push. -/
def stage4Step (_q : String) (res : StageResult CountrySuggestion) (thisSearchId : ℕ)
    (st : GlobalState) : GlobalState :=
  let st := { st with invoked := st.invoked ++ [4], netCalls := st.netCalls ++ [4] }
  match res with
  | StageResult.success data =>
    if data.isEmpty then st
    else
      let candidates := convertCountriesToUnified data
      pushIfLatest thisSearchId (candidates.map (fun c => { c with validating := true })) st
  | StageResult.error => st

/-- The state after stage 1 of a fresh generation. -/
def afterStage1 (q : String) (o : StageOracle) (st : GlobalState) : GlobalState :=
  stage1Step q o.cities1 (beginSearch st).2 (beginSearch st).1

/-- The state after the (gated) stage 2. -/
def afterStage2 (q : String) (o : StageOracle) (st : GlobalState) : GlobalState :=
  let s1 := afterStage1 q o st
  if s1.allSuggestions.isEmpty then stage2Step q o.countries2 (beginSearch st).2 s1 else s1

/-- The state after the (gated) stage 3. -/
def afterStage3 (q : String) (o : StageOracle) (st : GlobalState) : GlobalState :=
  let s2 := afterStage2 q o st
  if s2.allSuggestions.isEmpty then stage3Step q o.cities3 (beginSearch st).2 s2 else s2

/-- The state after the (gated) stage 4. -/
def afterStage4 (q : String) (o : StageOracle) (st : GlobalState) : GlobalState :=
  let s3 := afterStage3 q o st
  if s3.allSuggestions.isEmpty then stage4Step q o.countries4 (beginSearch st).2 s3 else s3

/-- One full `performSearch` run (guard already passed) during which no newer
search supersedes the generation: prologue, the four gated stages, then
finalization.  The background validation tasks do not alter candidate
membership and are modelled separately (`validationFlip`,
`fastValidateStep`). -/
def runSearch (q : String) (o : StageOracle) (st : GlobalState) : GlobalState :=
  finalizeSearch (beginSearch st).2 (afterStage4 q o st)

/-! ### Concrete fixtures used by counterexamples and witnesses -/

/-- A fresh `useSearch()` instance: counter 0, everything empty/idle. -/
def initState : GlobalState :=
  { currentSearchId := 0
    suggestionsPub := []
    searchStatus := SearchStatus.idle
    searchError := none
    allSuggestions := []
    cityApiCache := []
    countryApiCache := []
    invoked := []
    netCalls := [] }

def romeCity : CitySuggestion :=
  { id := 1, name := "Rome", country := "Italy", countryCode := "IT"
    latitude := 41, longitude := 12 }

/-- An oracle on which only the exact-city fallback (stage 3) finds
anything. -/
def oracleStage3Only : StageOracle :=
  { cities1 := StageResult.success []
    countries2 := StageResult.success []
    cities3 := StageResult.success [romeCity]
    countries4 := StageResult.error }

/-- An oracle on which stage 1 returns three cities. -/
def oracleStage1Three : StageOracle :=
  { cities1 := StageResult.success [romeCity, { romeCity with id := 2 }, { romeCity with id := 3 }]
    countries2 := StageResult.error
    cities3 := StageResult.error
    countries4 := StageResult.error }

/-- A geo call whose first attempt aborts (cancellation signal fired) and
whose second attempt resolves. -/
def oracleAbortThenOk : ℕ → AttemptOutcome ℕ :=
  fun n => if n = 1 then AttemptOutcome.aborted else AttemptOutcome.ok [7]

/-- A geo call that is rate limited (server hint 2000 ms) on every
attempt. -/
def oracleAllLimited : ℕ → AttemptOutcome ℕ :=
  fun _ => AttemptOutcome.rateLimited (some 2000)

def zeroJitter : ℕ → ℕ := fun _ => 0

/-- A city candidate at (10, 20). -/
def cityCand : UnifiedSuggestion :=
  { id := "city-5", name := "Sample", displayName := "Sample, Land"
    type := SuggType.city, lat := some 10, lon := some 20 }

/-- A city candidate on the equator (latitude 0). -/
def cityCandEquator : UnifiedSuggestion :=
  { cityCand with id := "city-9", lat := some 0 }

/-- A fully-populated weather body at (10, 20). -/
def respFull : WeatherResponse :=
  { weather := some ["Clear"], mainTemp := some 25
    coord := some (10, 20), name := some "Sample" }

/-- The weather body the source would snap to for the equator candidate:
complete data at (0, 20). -/
def respEquator : WeatherResponse :=
  { respFull with coord := some (0, 20) }

/-- A weather body whose coordinates drift 0.4° in latitude. -/
def resp104 : WeatherResponse :=
  { respFull with coord := some (10.4, 20) }

/-- A weather body whose coordinates drift 0.6° in latitude. -/
def resp106 : WeatherResponse :=
  { respFull with coord := some (10.6, 20) }

/-- The duplicate raw batch of claim C9: the same source-native id twice. -/
def dupBatch : List UnifiedSuggestion :=
  (convertCitiesToUnified [romeCity, romeCity]).map (fun c => { c with validating := true })

/-- A state in which generation 2 is current (so generation 1 is stale) and
something is already published. -/
def staleScene : GlobalState :=
  { initState with
      currentSearchId := 2
      suggestionsPub := [cityCand]
      searchStatus := SearchStatus.fetching }

end VueWeather

namespace VueWeather

/-! ### Helper lemmas -/

theorem allVowelsGe_mono (s : List Char) :
    allVowelsGe 3 s = true → allVowelsGe 2 s = true := by
  simp only [allVowelsGe, Bool.and_eq_true, decide_eq_true_eq]
  rintro ⟨h1, h2⟩
  exact ⟨by omega, h2⟩

theorem allConsGe_mono (s : List Char) :
    allConsGe 4 s = true → allConsGe 3 s = true := by
  simp only [allConsGe, Bool.and_eq_true, decide_eq_true_eq]
  rintro ⟨h1, h2⟩
  exact ⟨by omega, h2⟩

theorem kbAny_append (s : List Char) :
    kbAny (kbPats1 ++ kbPats2) s = (kbAny kbPats1 s || kbAny kbPats2 s) := by
  simp [kbAny, List.any_append]

theorem gibberish_eq (s : List Char) : gibberishCheck s = specGibberishAmended s := by
  unfold gibberishCheck specGibberishAmended
  rw [kbAny_append]
  cases h3 : allVowelsGe 3 s with
  | true => simp [allVowelsGe_mono s h3]
  | false =>
    cases h4 : allConsGe 4 s with
    | true => simp [allConsGe_mono s h4]
    | false =>
      simp only [Bool.false_or]
      ac_rfl

/-- An aborted weather fetch resolves to `false` (the catch handler of
`validateSuggestion` swallows the `AbortError`). -/
theorem validateSuggestion_aborted (c : UnifiedSuggestion) :
    validateSuggestion c FetchOutcome.aborted = false := by
  cases h : weatherRequestOf c <;> simp [validateSuggestion, h]

/-- Comparison bridge: `a ≤ b` decides to the negation of `b < a`. -/
theorem decide_le_eq_not_decide_lt (a b : ℚ) :
    (decide (a ≤ b)) = !(decide (b < a)) := by
  by_cases h : a ≤ b
  · simp [h, not_lt.mpr h]
  · simp [h, not_le.mp h]

/-- Unfolding step of the retry loop on a failed, non-final attempt. -/
theorem retryGo_failure_step {α : Type} (o : ℕ → AttemptOutcome α) (jR jN : ℕ → ℕ)
    (a r : ℕ) (hf : (o a).isFailure = true) (hr : r ≠ 0) :
    retryGo o jR jN a (r + 1) =
      { success := (retryGo o jR jN (a + 1) r).success
        data := (retryGo o jR jN (a + 1) r).data
        attemptsUsed := (retryGo o jR jN (a + 1) r).attemptsUsed + 1
        waits := backoffWaitMs (o a) a (jR a) (jN a) ::
          (retryGo o jR jN (a + 1) r).waits } := by
  cases h : o a with
  | ok d =>
    rw [h] at hf
    simp [AttemptOutcome.isFailure] at hf
  | rateLimited hint => simp [retryGo, h, hr]
  | aborted => simp [retryGo, h, hr]
  | netError => simp [retryGo, h, hr]

/-- Unfolding step of the retry loop on a failed final attempt. -/
theorem retryGo_failure_last {α : Type} (o : ℕ → AttemptOutcome α) (jR jN : ℕ → ℕ)
    (a : ℕ) (hf : (o a).isFailure = true) :
    retryGo o jR jN a 1 =
      { success := false, data := [], attemptsUsed := 1, waits := [] } := by
  cases h : o a with
  | ok d =>
    rw [h] at hf
    simp [AttemptOutcome.isFailure] at hf
  | rateLimited hint => simp [retryGo, h]
  | aborted => simp [retryGo, h]
  | netError => simp [retryGo, h]

/-- Unfolding step of the retry loop on a resolved attempt. -/
theorem retryGo_ok_step {α : Type} (o : ℕ → AttemptOutcome α) (jR jN : ℕ → ℕ)
    (a r : ℕ) (d : List α) (hok : o a = AttemptOutcome.ok d) :
    retryGo o jR jN a (r + 1) =
      { success := true, data := d, attemptsUsed := 1, waits := [] } := by
  simp [retryGo, hok]

/-- The retry loop consumes at least one attempt when any remain. -/
theorem retryGo_attempts_pos {α : Type} (o : ℕ → AttemptOutcome α) (jR jN : ℕ → ℕ)
    (a r : ℕ) : 1 ≤ (retryGo o jR jN a (r + 1)).attemptsUsed := by
  cases h : o a with
  | ok d => simp [retryGo_ok_step o jR jN a r _ h]
  | rateLimited hint =>
    cases r with
    | zero => simp [retryGo_failure_last o jR jN a (by simp [h, AttemptOutcome.isFailure])]
    | succ r' =>
      rw [retryGo_failure_step o jR jN a (r' + 1) (by simp [h, AttemptOutcome.isFailure]) (by omega)]
      simp
  | aborted =>
    cases r with
    | zero => simp [retryGo_failure_last o jR jN a (by simp [h, AttemptOutcome.isFailure])]
    | succ r' =>
      rw [retryGo_failure_step o jR jN a (r' + 1) (by simp [h, AttemptOutcome.isFailure]) (by omega)]
      simp
  | netError =>
    cases r with
    | zero => simp [retryGo_failure_last o jR jN a (by simp [h, AttemptOutcome.isFailure])]
    | succ r' =>
      rw [retryGo_failure_step o jR jN a (r' + 1) (by simp [h, AttemptOutcome.isFailure]) (by omega)]
      simp

/-! ### Claim theorems -/

/-- C3, counterexample: the string "ai" violates none of the rejection rules
listed by the claim (it is too short for every run-based heuristic), yet
`isValidSearchQuery` rejects it, because the source carries an extra
whole-string all-vowel pattern of minimum length 2. -/
theorem claim_C3_counterexample :
    specValidQueryClaim ("ai") = true ∧ isValidSearchQuery ("ai") = false := by
  exact ⟨by decide, by decide⟩

/-- C3, amended: `isValidSearchQuery` accepts exactly the strings passing the
amended rule list, whose gibberish heuristics are whole-string checks — all
vowels at length ≥ 2 (so "ai" is rejected), all consonant-class characters at
length ≥ 3 (the class counting `i`), a non-line-terminator character tripled
consecutively, one letter filling the string, the listed mash prefixes, the
doubled-pair shape `xxyy⁺` (both shape characters non-line-terminators), or
one keyboard row. -/
theorem claim_C3_amended (q : String) :
    isValidSearchQuery q = specValidQueryAmended q := by
  simp only [isValidSearchQuery, specValidQueryAmended]
  rw [gibberish_eq]
  split_ifs with h1 h2 h3 h4 h5 h6
  · have hc : (decide (2 ≤ q.data.length)) = false := by
      simp only [decide_eq_false_iff_not]; omega
    simp only [hc, Bool.false_and]
  · have hc : q.data.all validQueryChar = false := by
      simpa using h2
    simp only [hc, Bool.and_false, Bool.false_and]
  · simp only [h3, Bool.not_true, Bool.and_false, Bool.false_and]
  · simp only [Bool.and_eq_true, Bool.or_eq_true, Bool.not_eq_true',
      decide_eq_true_eq] at h4
    obtain ⟨hlen, hvc⟩ := h4
    have hd : (decide (2 < q.data.length)) = true := decide_eq_true hlen
    rcases hvc with h | h <;>
      simp only [hd, h, Bool.not_true, Bool.false_and, Bool.and_false,
        Bool.false_or, Bool.or_false, Bool.and_true, Bool.true_and]
  · simp only [h5, Bool.not_true, Bool.and_false, Bool.false_and]
  · have hc : (decide (q.data.length ≤ 50)) = false := by
      simp only [decide_eq_true_eq] at h6
      simp only [decide_eq_false_iff_not]
      omega
    simp only [hc, Bool.and_false]
  · have c1 : (decide (2 ≤ q.data.length)) = true := by
      simp only [decide_eq_true_eq]; omega
    have c2 : q.data.all validQueryChar = true := by
      simpa using h2
    have c3 : specGibberishAmended q.data = false := by
      simpa using h3
    have c5 : edgeCheck q.data = false := by
      simpa using h5
    have c6 : (decide (q.data.length ≤ 50)) = true := by
      simp only [decide_eq_true_eq]
      simp only [Nat.not_lt, decide_eq_true_eq] at h6
      omega
    have c4 : (!(decide (2 < q.data.length)) ||
        (q.data.any isVowelChar && q.data.any consClassChar)) = true := by
      by_cases hl : 2 < q.data.length
      · have hd : (decide (2 < q.data.length)) = true := decide_eq_true hl
        have hx : (!(q.data.any isVowelChar) || !(q.data.any consClassChar)) = false := by
          rcases Bool.eq_false_or_eq_true
              (!(q.data.any isVowelChar) || !(q.data.any consClassChar)) with hh | hh
          case inl => exact absurd (by rw [hd, hh]; rfl) h4
          case inr => exact hh
        simp only [Bool.or_eq_false_iff, Bool.not_eq_false'] at hx
        simp only [hx.1, hx.2, Bool.and_self, Bool.or_true]
      · have hd : (decide (2 < q.data.length)) = false := by
          simp only [decide_eq_false_iff_not]; exact hl
        simp only [hd, Bool.not_false, Bool.true_or]
    simp only [c1, c2, c3, c4, c5, c6, Bool.not_false, Bool.and_true,
      Bool.true_and, Bool.and_self]

/-- C10: a city candidate whose latitude or longitude equals 0 is rejected by
the falsiness guard of `validateSuggestion` before any weather request is
built, whatever the network would have answered. -/
theorem claim_C10 (c : UnifiedSuggestion) (hc : c.type = SuggType.city)
    (h0 : c.lat = some 0 ∨ c.lon = some 0) :
    weatherRequestOf c = none ∧ ∀ outcome, validateSuggestion c outcome = false := by
  have hreq : weatherRequestOf c = none := by
    rcases h0 with h | h <;> simp [weatherRequestOf, hc, h, falsyNum]
  refine ⟨hreq, fun outcome => ?_⟩
  simp [validateSuggestion, hreq]

/-- C10, witness at a concrete equator city. -/
theorem claim_C10_witness :
    weatherRequestOf cityCandEquator = none ∧
    ∀ outcome, validateSuggestion cityCandEquator outcome = false :=
  claim_C10 cityCandEquator (by decide) (Or.inl (by decide))

/-- C7, counterexample: aborting the validation of a concrete city candidate
records `false` under its cache key — the cancelled generation poisons the
shared validation cache. -/
theorem claim_C7_counterexample :
    alookup (validationCacheKey cityCand)
      (fastValidateStep cityCand FetchOutcome.aborted []).2 = some false := by
  simp [fastValidateStep, alookup, validateSuggestion_aborted]

/-- C7, amended: an entry is written exactly on a cache miss, and its value
is whatever `validateSuggestion` resolved to — including `false` when the
lookup was aborted by cancellation, since `validateSuggestion` swallows the
abort.  A cancelled generation therefore records a `false` entry for the
candidate's key (rather than never writing one). -/
theorem claim_C7_amended (c : UnifiedSuggestion) (cache : List (ValidationCacheKey × Bool))
    (hmiss : alookup (validationCacheKey c) cache = none) :
    alookup (validationCacheKey c) (fastValidateStep c FetchOutcome.aborted cache).2 =
      some false ∧
    (fastValidateStep c FetchOutcome.aborted cache).1 = none := by
  simp [fastValidateStep, hmiss, validateSuggestion_aborted, alookup]

/-- C7, amended, witness: concrete candidate, empty cache. -/
theorem claim_C7_amended_witness :
    alookup (validationCacheKey cityCandEquator)
      (fastValidateStep cityCandEquator FetchOutcome.aborted []).2 = some false ∧
    (fastValidateStep cityCandEquator FetchOutcome.aborted []).1 = none :=
  claim_C7_amended cityCandEquator [] (by decide)

/-- C6, counterexample: a geo call whose first attempt aborts (cancellation)
consumes one of the three attempts and sleeps the generic 600 ms backoff
before the call is reissued — the wrapper treats the abort exactly like a
failed attempt, contradicting the claim. -/
theorem claim_C6_counterexample :
    (tryPersistentApiSearch oracleAbortThenOk zeroJitter zeroJitter).attemptsUsed = 2 ∧
    (tryPersistentApiSearch oracleAbortThenOk zeroJitter zeroJitter).waits = [600] := by
  exact ⟨by decide, by decide⟩

/-- C6, amended: an abort raised by the cancellation signal is handled by the
generic error branch of `tryPersistentApiSearch`: it consumes one of the 3
attempts, sleeps `min(2¹·300 + jitter, 3000)` ms, and the cancelled call is
reissued as attempt 2. -/
theorem claim_C6_amended {α : Type} (o : ℕ → AttemptOutcome α) (jR jN : ℕ → ℕ)
    (h : o 1 = AttemptOutcome.aborted) :
    2 ≤ (tryPersistentApiSearch o jR jN).attemptsUsed ∧
    (tryPersistentApiSearch o jR jN).attemptsUsed = (retryGo o jR jN 2 2).attemptsUsed + 1 ∧
    (tryPersistentApiSearch o jR jN).success = (retryGo o jR jN 2 2).success ∧
    (tryPersistentApiSearch o jR jN).data = (retryGo o jR jN 2 2).data ∧
    (tryPersistentApiSearch o jR jN).waits =
      min (2 ^ 1 * 300 + jN 1) 3000 :: (retryGo o jR jN 2 2).waits := by
  have hrest : 1 ≤ (retryGo o jR jN 2 2).attemptsUsed :=
    retryGo_attempts_pos o jR jN 2 1
  have hstep := retryGo_failure_step o jR jN 1 2
    (by simp [h, AttemptOutcome.isFailure]) (by omega)
  have h12 : (1 : ℕ) + 1 = 2 := rfl
  rw [h12] at hstep
  unfold tryPersistentApiSearch
  rw [show (3 : ℕ) = 2 + 1 from rfl, hstep]
  refine ⟨by simp; omega, rfl, rfl, rfl, ?_⟩
  simp [h, backoffWaitMs]

/-- Characterization of `pushIfLatest` with the lets inlined. -/
theorem pushIfLatest_eq (tid : ℕ) (items : List UnifiedSuggestion) (st : GlobalState) :
    pushIfLatest tid items st =
      if tid ≠ st.currentSearchId then st
      else if (items.filter
          (fun it => !((st.allSuggestions.map (fun s => s.id)).contains it.id))).isEmpty then st
      else
        { st with
          allSuggestions := st.allSuggestions ++ items.filter
            (fun it => !((st.allSuggestions.map (fun s => s.id)).contains it.id))
          suggestionsPub := sortByValidation (st.allSuggestions ++ items.filter
            (fun it => !((st.allSuggestions.map (fun s => s.id)).contains it.id))) } := rfl

theorem alookup_cons_self {kappa nu : Type} [DecidableEq kappa] (k : kappa) (v : nu)
    (l : List (kappa × nu)) : alookup k ((k, v) :: l) = some v := by
  simp [alookup]

theorem pushIfLatest_invoked (tid : ℕ) (items : List UnifiedSuggestion) (st : GlobalState) :
    (pushIfLatest tid items st).invoked = st.invoked := by
  rw [pushIfLatest_eq]
  split_ifs <;> rfl

theorem pushIfLatest_netCalls (tid : ℕ) (items : List UnifiedSuggestion) (st : GlobalState) :
    (pushIfLatest tid items st).netCalls = st.netCalls := by
  rw [pushIfLatest_eq]
  split_ifs <;> rfl

theorem pushIfLatest_currentSearchId (tid : ℕ) (items : List UnifiedSuggestion)
    (st : GlobalState) :
    (pushIfLatest tid items st).currentSearchId = st.currentSearchId := by
  rw [pushIfLatest_eq]
  split_ifs <;> rfl

theorem pushIfLatest_cityApiCache (tid : ℕ) (items : List UnifiedSuggestion)
    (st : GlobalState) :
    (pushIfLatest tid items st).cityApiCache = st.cityApiCache := by
  rw [pushIfLatest_eq]
  split_ifs <;> rfl

theorem pushIfLatest_countryApiCache (tid : ℕ) (items : List UnifiedSuggestion)
    (st : GlobalState) :
    (pushIfLatest tid items st).countryApiCache = st.countryApiCache := by
  rw [pushIfLatest_eq]
  split_ifs <;> rfl

theorem pushIfLatest_searchStatus (tid : ℕ) (items : List UnifiedSuggestion)
    (st : GlobalState) :
    (pushIfLatest tid items st).searchStatus = st.searchStatus := by
  rw [pushIfLatest_eq]
  split_ifs <;> rfl

/-- On a fresh accumulator of the current generation the whole batch is
appended (nothing is seen yet). -/
theorem pushIfLatest_fresh (tid : ℕ) (items : List UnifiedSuggestion) (st : GlobalState)
    (hcur : tid = st.currentSearchId) (hacc : st.allSuggestions = []) :
    (pushIfLatest tid items st).allSuggestions = items := by
  have hne : ¬ (tid ≠ st.currentSearchId) := by simp [hcur]
  rw [pushIfLatest_eq, if_neg hne, hacc]
  have hf : (items.filter
      (fun it => !((([] : List UnifiedSuggestion).map (fun s => s.id)).contains it.id))) =
        items := by
    simp
  rw [hf]
  by_cases hi : items.isEmpty
  · rw [if_pos hi, hacc, List.isEmpty_iff.mp hi]
  · rw [if_neg hi]
    simp

theorem stage1Step_invoked (q : String) (res : StageResult CitySuggestion) (tid : ℕ)
    (st : GlobalState) : (stage1Step q res tid st).invoked = st.invoked ++ [1] := by
  cases h : alookup q st.cityApiCache <;> cases res <;>
      simp [stage1Step, h, pushIfLatest_invoked] <;> split <;>
    simp [pushIfLatest_invoked]

theorem stage2Step_invoked (q : String) (res : StageResult CountrySuggestion) (tid : ℕ)
    (st : GlobalState) : (stage2Step q res tid st).invoked = st.invoked ++ [2] := by
  cases h : alookup q st.countryApiCache <;> cases res <;>
      simp [stage2Step, h, pushIfLatest_invoked] <;> split <;>
    simp [pushIfLatest_invoked]

theorem stage3Step_invoked (q : String) (res : StageResult CitySuggestion) (tid : ℕ)
    (st : GlobalState) : (stage3Step q res tid st).invoked = st.invoked ++ [3] := by
  cases res <;> simp [stage3Step, pushIfLatest_invoked] <;> split <;>
    simp [pushIfLatest_invoked]

theorem stage4Step_invoked (q : String) (res : StageResult CountrySuggestion) (tid : ℕ)
    (st : GlobalState) : (stage4Step q res tid st).invoked = st.invoked ++ [4] := by
  cases res <;> simp [stage4Step, pushIfLatest_invoked] <;> split <;>
    simp [pushIfLatest_invoked]

theorem stage1Step_currentSearchId (q : String) (res : StageResult CitySuggestion) (tid : ℕ)
    (st : GlobalState) : (stage1Step q res tid st).currentSearchId = st.currentSearchId := by
  cases h : alookup q st.cityApiCache <;> cases res <;>
      simp [stage1Step, h, pushIfLatest_currentSearchId] <;> split <;>
    simp [pushIfLatest_currentSearchId]

theorem stage2Step_currentSearchId (q : String) (res : StageResult CountrySuggestion) (tid : ℕ)
    (st : GlobalState) : (stage2Step q res tid st).currentSearchId = st.currentSearchId := by
  cases h : alookup q st.countryApiCache <;> cases res <;>
      simp [stage2Step, h, pushIfLatest_currentSearchId] <;> split <;>
    simp [pushIfLatest_currentSearchId]

theorem stage3Step_currentSearchId (q : String) (res : StageResult CitySuggestion) (tid : ℕ)
    (st : GlobalState) : (stage3Step q res tid st).currentSearchId = st.currentSearchId := by
  cases res <;> simp [stage3Step, pushIfLatest_currentSearchId] <;> split <;>
    simp [pushIfLatest_currentSearchId]

theorem stage4Step_currentSearchId (q : String) (res : StageResult CountrySuggestion) (tid : ℕ)
    (st : GlobalState) : (stage4Step q res tid st).currentSearchId = st.currentSearchId := by
  cases res <;> simp [stage4Step, pushIfLatest_currentSearchId] <;> split <;>
    simp [pushIfLatest_currentSearchId]

theorem stage1Step_netCalls_miss (q : String) (res : StageResult CitySuggestion) (tid : ℕ)
    (st : GlobalState) (hmiss : alookup q st.cityApiCache = none) :
    (stage1Step q res tid st).netCalls = st.netCalls ++ [1] := by
  cases res <;> simp [stage1Step, hmiss, pushIfLatest_netCalls] <;> split <;>
    simp [pushIfLatest_netCalls]

theorem stage1Step_netCalls_hit (q : String) (res : StageResult CitySuggestion) (tid : ℕ)
    (st : GlobalState) (d : List CitySuggestion)
    (hhit : alookup q st.cityApiCache = some d) :
    (stage1Step q res tid st).netCalls = st.netCalls := by
  cases res <;> simp [stage1Step, hhit, pushIfLatest_netCalls] <;> split <;>
    simp [pushIfLatest_netCalls]

/-- Characterization of stage 1 on a cache miss with a non-empty successful
result: the network is called, the raw data cached, and the converted batch
pushed. -/
theorem stage1Step_miss_success (q : String) (data : List CitySuggestion) (tid : ℕ)
    (st : GlobalState) (hmiss : alookup q st.cityApiCache = none)
    (hne : data.isEmpty = false) :
    stage1Step q (StageResult.success data) tid st =
      pushIfLatest tid
        ((convertCitiesToUnified data).map (fun c => { c with validating := true }))
        { st with
            invoked := st.invoked ++ [1]
            netCalls := st.netCalls ++ [1]
            cityApiCache := (q, data) :: st.cityApiCache } := by
  simp [stage1Step, hmiss, hne]

/-- Characterization of stage 1 on a cache hit with non-empty cached data:
no network call, no re-caching, the converted cached batch pushed. -/
theorem stage1Step_hit_success (q : String) (data : List CitySuggestion)
    (res : StageResult CitySuggestion) (tid : ℕ) (st : GlobalState)
    (hhit : alookup q st.cityApiCache = some data) (hne : data.isEmpty = false) :
    stage1Step q res tid st =
      pushIfLatest tid
        ((convertCitiesToUnified data).map (fun c => { c with validating := true }))
        { st with invoked := st.invoked ++ [1] } := by
  simp [stage1Step, hhit, hne]

theorem finalizeSearch_allSuggestions (tid : ℕ) (st : GlobalState) :
    (finalizeSearch tid st).allSuggestions = st.allSuggestions := by
  unfold finalizeSearch
  split_ifs <;> rfl

theorem finalizeSearch_invoked (tid : ℕ) (st : GlobalState) :
    (finalizeSearch tid st).invoked = st.invoked := by
  unfold finalizeSearch
  split_ifs <;> rfl

theorem finalizeSearch_netCalls (tid : ℕ) (st : GlobalState) :
    (finalizeSearch tid st).netCalls = st.netCalls := by
  unfold finalizeSearch
  split_ifs <;> rfl

theorem finalizeSearch_cityApiCache (tid : ℕ) (st : GlobalState) :
    (finalizeSearch tid st).cityApiCache = st.cityApiCache := by
  unfold finalizeSearch
  split_ifs <;> rfl

theorem finalizeSearch_countryApiCache (tid : ℕ) (st : GlobalState) :
    (finalizeSearch tid st).countryApiCache = st.countryApiCache := by
  unfold finalizeSearch
  split_ifs <;> rfl

/-- Finalization of the current generation publishes `success` or
`no_results`, never `error`. -/
theorem finalizeSearch_status_current (tid : ℕ) (st : GlobalState)
    (hcur : tid = st.currentSearchId) :
    (finalizeSearch tid st).searchStatus = SearchStatus.success ∨
    (finalizeSearch tid st).searchStatus = SearchStatus.no_results := by
  unfold finalizeSearch
  rw [if_neg (by simp [hcur])]
  split_ifs <;> simp

/-- Position `k` of the wait trace is the backoff of attempt `a + k`. -/
theorem retryGo_waits_eq {α : Type} (o : ℕ → AttemptOutcome α) (jR jN : ℕ → ℕ) :
    ∀ (r a k : ℕ) (w : ℕ), (retryGo o jR jN a r).waits.get? k = some w →
      w = backoffWaitMs (o (a + k)) (a + k) (jR (a + k)) (jN (a + k)) := by
  intro r
  induction r with
  | zero =>
    intro a k w hw
    simp [retryGo] at hw
  | succ r ih =>
    intro a k w hw
    cases hoa : o a with
    | ok d =>
      rw [retryGo_ok_step o jR jN a r d hoa] at hw
      simp at hw
    | rateLimited hint =>
      cases r with
      | zero =>
        rw [retryGo_failure_last o jR jN a (by simp [hoa, AttemptOutcome.isFailure])] at hw
        simp at hw
      | succ r' =>
        rw [retryGo_failure_step o jR jN a (r' + 1)
          (by simp [hoa, AttemptOutcome.isFailure]) (by omega)] at hw
        cases k with
        | zero =>
          simp at hw
          first
          | simpa using hw.symm
          | simpa using hw
        | succ k' =>
          have harith : a + (k' + 1) = (a + 1) + k' := by omega
          rw [harith]
          exact ih (a + 1) k' w (by simpa using hw)
    | aborted =>
      cases r with
      | zero =>
        rw [retryGo_failure_last o jR jN a (by simp [hoa, AttemptOutcome.isFailure])] at hw
        simp at hw
      | succ r' =>
        rw [retryGo_failure_step o jR jN a (r' + 1)
          (by simp [hoa, AttemptOutcome.isFailure]) (by omega)] at hw
        cases k with
        | zero =>
          simp at hw
          first
          | simpa using hw.symm
          | simpa using hw
        | succ k' =>
          have harith : a + (k' + 1) = (a + 1) + k' := by omega
          rw [harith]
          exact ih (a + 1) k' w (by simpa using hw)
    | netError =>
      cases r with
      | zero =>
        rw [retryGo_failure_last o jR jN a (by simp [hoa, AttemptOutcome.isFailure])] at hw
        simp at hw
      | succ r' =>
        rw [retryGo_failure_step o jR jN a (r' + 1)
          (by simp [hoa, AttemptOutcome.isFailure]) (by omega)] at hw
        cases k with
        | zero =>
          simp at hw
          first
          | simpa using hw.symm
          | simpa using hw
        | succ k' =>
          have harith : a + (k' + 1) = (a + 1) + k' := by omega
          rw [harith]
          exact ih (a + 1) k' w (by simpa using hw)

/-- The retry loop never exceeds its allowance. -/
theorem retryGo_attempts_le {α : Type} (o : ℕ → AttemptOutcome α) (jR jN : ℕ → ℕ) :
    ∀ (r a : ℕ), (retryGo o jR jN a r).attemptsUsed ≤ r := by
  intro r
  induction r with
  | zero =>
    intro a
    simp [retryGo]
  | succ r ih =>
    intro a
    cases hoa : o a with
    | ok d =>
      rw [retryGo_ok_step o jR jN a r d hoa]
      show (1 : ℕ) ≤ r + 1
      omega
    | rateLimited hint =>
      cases r with
      | zero =>
        rw [retryGo_failure_last o jR jN a (by simp [hoa, AttemptOutcome.isFailure])]
      | succ r' =>
        rw [retryGo_failure_step o jR jN a (r' + 1)
          (by simp [hoa, AttemptOutcome.isFailure]) (by omega)]
        have hih := ih (a + 1)
        show (retryGo o jR jN (a + 1) (r' + 1)).attemptsUsed + 1 ≤ r' + 1 + 1
        omega
    | aborted =>
      cases r with
      | zero =>
        rw [retryGo_failure_last o jR jN a (by simp [hoa, AttemptOutcome.isFailure])]
      | succ r' =>
        rw [retryGo_failure_step o jR jN a (r' + 1)
          (by simp [hoa, AttemptOutcome.isFailure]) (by omega)]
        have hih := ih (a + 1)
        show (retryGo o jR jN (a + 1) (r' + 1)).attemptsUsed + 1 ≤ r' + 1 + 1
        omega
    | netError =>
      cases r with
      | zero =>
        rw [retryGo_failure_last o jR jN a (by simp [hoa, AttemptOutcome.isFailure])]
      | succ r' =>
        rw [retryGo_failure_step o jR jN a (r' + 1)
          (by simp [hoa, AttemptOutcome.isFailure]) (by omega)]
        have hih := ih (a + 1)
        show (retryGo o jR jN (a + 1) (r' + 1)).attemptsUsed + 1 ≤ r' + 1 + 1
        omega

theorem afterStage1_currentSearchId (q : String) (o : StageOracle) (st : GlobalState) :
    (afterStage1 q o st).currentSearchId = (beginSearch st).2 := by
  rw [afterStage1, stage1Step_currentSearchId]
  rfl

theorem afterStage2_currentSearchId (q : String) (o : StageOracle) (st : GlobalState) :
    (afterStage2 q o st).currentSearchId = (beginSearch st).2 := by
  rw [afterStage2]
  split_ifs
  · rw [stage2Step_currentSearchId, afterStage1_currentSearchId]
  · exact afterStage1_currentSearchId q o st

theorem afterStage3_currentSearchId (q : String) (o : StageOracle) (st : GlobalState) :
    (afterStage3 q o st).currentSearchId = (beginSearch st).2 := by
  rw [afterStage3]
  split_ifs
  · rw [stage3Step_currentSearchId, afterStage2_currentSearchId]
  · exact afterStage2_currentSearchId q o st

theorem afterStage4_currentSearchId (q : String) (o : StageOracle) (st : GlobalState) :
    (afterStage4 q o st).currentSearchId = (beginSearch st).2 := by
  rw [afterStage4]
  split_ifs
  · rw [stage4Step_currentSearchId, afterStage3_currentSearchId]
  · exact afterStage3_currentSearchId q o st

/-- A full run always finalizes to `success` or `no_results` — stage
failures never surface as the top-level `error` status. -/
theorem runSearch_status_ne_error (q : String) (o : StageOracle) (st : GlobalState) :
    (runSearch q o st).searchStatus ≠ SearchStatus.error := by
  rw [runSearch]
  rcases finalizeSearch_status_current (beginSearch st).2 (afterStage4 q o st)
      (afterStage4_currentSearchId q o st).symm with h | h <;> rw [h] <;> simp

/-- C5: the retry policy of `tryPersistentApiSearch`: at most 3 attempts;
the `k`-th sleep of the trace is the backoff of attempt `k + 1`, computed as
`min(serverHintMs ?? 2^attempt·500 + jitter, 5000)` on a rate limit and
`min(2^attempt·300 + jitter, 3000)` otherwise (so rate-limit waits never
exceed 5000 ms and the rest never exceed 3000 ms); exhausting all three
attempts yields the error result with an empty data list; and a stage
failure never drives `performSearch` to the top-level `error` status. -/
theorem claim_C5 {α : Type} (o : ℕ → AttemptOutcome α) (jR jN : ℕ → ℕ) :
    (tryPersistentApiSearch o jR jN).attemptsUsed ≤ 3 ∧
    (∀ k w, (tryPersistentApiSearch o jR jN).waits.get? k = some w →
      w = backoffWaitMs (o (k + 1)) (k + 1) (jR (k + 1)) (jN (k + 1))) ∧
    (∀ hint a jr jn, backoffWaitMs (AttemptOutcome.rateLimited hint : AttemptOutcome α)
      a jr jn ≤ 5000) ∧
    (∀ f : AttemptOutcome α, ∀ a jr jn, (∀ hint, f ≠ AttemptOutcome.rateLimited hint) →
      backoffWaitMs f a jr jn ≤ 3000) ∧
    ((o 1).isFailure = true → (o 2).isFailure = true → (o 3).isFailure = true →
      tryPersistentApiSearch o jR jN =
        { success := false, data := [], attemptsUsed := 3,
          waits := [backoffWaitMs (o 1) 1 (jR 1) (jN 1),
            backoffWaitMs (o 2) 2 (jR 2) (jN 2)] }) ∧
    (∀ (qq : String) (so : StageOracle) (stg : GlobalState),
      (runSearch qq so stg).searchStatus ≠ SearchStatus.error) := by
  refine ⟨retryGo_attempts_le o jR jN 3 1, ?_, ?_, ?_, ?_, ?_⟩
  · intro k w hw
    have := retryGo_waits_eq o jR jN 3 1 k w hw
    rw [this]
    have harith : 1 + k = k + 1 := by omega
    rw [harith]
  · intro hint a jr jn
    simp [backoffWaitMs]
  · intro f a jr jn hnr
    cases f with
    | rateLimited hint => exact absurd rfl (hnr hint)
    | ok d => simp [backoffWaitMs]
    | aborted => simp [backoffWaitMs]
    | netError => simp [backoffWaitMs]
  · intro hf1 hf2 hf3
    have e3 : retryGo o jR jN 3 1 =
        { success := false, data := [], attemptsUsed := 1, waits := [] } :=
      retryGo_failure_last o jR jN 3 hf3
    have e2 : retryGo o jR jN 2 2 =
        { success := false, data := [], attemptsUsed := 2,
          waits := [backoffWaitMs (o 2) 2 (jR 2) (jN 2)] } := by
      have h2 := retryGo_failure_step o jR jN 2 1 hf2 (by omega)
      simp only [Nat.reduceAdd] at h2
      rw [h2, e3]
    have h1 := retryGo_failure_step o jR jN 1 2 hf1 (by omega)
    simp only [Nat.reduceAdd] at h1
    unfold tryPersistentApiSearch
    rw [h1, e2]
  · exact runSearch_status_ne_error

/-- C5, witness: the always-rate-limited oracle exhausts its three attempts
(the inner hypotheses discharged at the concrete oracle). -/
theorem claim_C5_witness :
    tryPersistentApiSearch oracleAllLimited zeroJitter zeroJitter =
      { success := false, data := [], attemptsUsed := 3,
        waits := [backoffWaitMs (oracleAllLimited 1) 1 (zeroJitter 1) (zeroJitter 1),
          backoffWaitMs (oracleAllLimited 2) 2 (zeroJitter 2) (zeroJitter 2)] } :=
  (claim_C5 oracleAllLimited zeroJitter zeroJitter).2.2.2.2.1 rfl rfl rfl

/-- C1: every stale-generation writer is a no-op.  The four ways a search
continuation writes `suggestions` or `searchStatus` — a stage push, a
background validation-completion callback, the finalization, the catch
handler — all return the state unchanged when the captured generation id
differs from the live counter, and starting a new search strictly increases
the counter, so every continuation captured before the newer search stays
stale forever. -/
theorem claim_C1 (tid : ℕ) (items : List UnifiedSuggestion) (validIds : List String)
    (msg : String) (st : GlobalState) (hstale : tid < st.currentSearchId) :
    pushIfLatest tid items st = st ∧
    validationFlip tid validIds st = st ∧
    finalizeSearch tid st = st ∧
    catchWrite tid msg st = st ∧
    (beginSearch st).1.currentSearchId = st.currentSearchId + 1 ∧
    tid < (beginSearch st).1.currentSearchId := by
  have hne : tid ≠ st.currentSearchId := Nat.ne_of_lt hstale
  refine ⟨?_, ?_, ?_, ?_, ?_, ?_⟩
  · simp [pushIfLatest, hne]
  · simp [validationFlip, hne]
  · simp [finalizeSearch, hne]
  · simp [catchWrite, hne]
  · simp [beginSearch]
  · simp [beginSearch]
    omega

/-- C1, witness: generation 1 is stale once generation 2 is current. -/
theorem claim_C1_witness :
    pushIfLatest 1 dupBatch staleScene = staleScene ∧
    validationFlip 1 ["city-1"] staleScene = staleScene ∧
    finalizeSearch 1 staleScene = staleScene ∧
    catchWrite 1 ("Search failed") staleScene = staleScene ∧
    (beginSearch staleScene).1.currentSearchId = staleScene.currentSearchId + 1 ∧
    1 < (beginSearch staleScene).1.currentSearchId :=
  claim_C1 1 dupBatch ["city-1"] ("Search failed") staleScene (by decide)

/-- C9, counterexample: a raw stage batch carrying the same source-native id
twice passes `pushIfLatest` untouched by the de-duplication (the `seen` set
is built only from the already-accumulated list), so the published list holds
two suggestions with the same id. -/
theorem claim_C9_counterexample :
    ¬ (((pushIfLatest 1 dupBatch { initState with currentSearchId := 1 }).suggestionsPub.map
        (fun s => s.id)).Nodup) := by
  intro h
  have he : (pushIfLatest 1 dupBatch { initState with currentSearchId := 1 }).suggestionsPub =
      sortByValidation ([] ++ dupBatch) := by
    simp [pushIfLatest, initState, dupBatch, convertCitiesToUnified, romeCity]
  rw [he] at h
  have hp := ((List.perm_insertionSort suggLE ([] ++ dupBatch)).map
    (fun s => s.id)).nodup_iff.mp h
  exact absurd hp (by decide)

/-- C9, amended: `pushIfLatest` de-duplicates only against the accumulated
list; provided each incoming batch is itself id-duplicate-free (and the state
was), the accumulated and published lists keep pairwise-distinct ids. -/
theorem claim_C9_amended (tid : ℕ) (items : List UnifiedSuggestion) (st : GlobalState)
    (h1 : (st.allSuggestions.map (fun s => s.id)).Nodup)
    (h2 : (items.map (fun s => s.id)).Nodup)
    (h3 : (st.suggestionsPub.map (fun s => s.id)).Nodup) :
    ((pushIfLatest tid items st).allSuggestions.map (fun s => s.id)).Nodup ∧
    ((pushIfLatest tid items st).suggestionsPub.map (fun s => s.id)).Nodup := by
  by_cases hstale : tid ≠ st.currentSearchId
  · have he : pushIfLatest tid items st = st := by
      simp [pushIfLatest, hstale]
    rw [he]
    exact ⟨h1, h3⟩
  · by_cases hemp : (items.filter
        (fun it => !((st.allSuggestions.map (fun s => s.id)).contains it.id))).isEmpty
    · have he : pushIfLatest tid items st = st := by
        rw [pushIfLatest_eq, if_neg hstale, if_pos hemp]
      rw [he]
      exact ⟨h1, h3⟩
    · have he : pushIfLatest tid items st =
          { st with
            allSuggestions := st.allSuggestions ++ items.filter
              (fun it => !((st.allSuggestions.map (fun s => s.id)).contains it.id))
            suggestionsPub := sortByValidation (st.allSuggestions ++ items.filter
              (fun it => !((st.allSuggestions.map (fun s => s.id)).contains it.id))) } := by
        rw [pushIfLatest_eq, if_neg hstale, if_neg hemp]
      rw [he]
      have hnodup2 : ((items.filter
          (fun it => !((st.allSuggestions.map (fun s => s.id)).contains it.id))).map
            (fun s => s.id)).Nodup :=
        h2.sublist ((List.filter_sublist items).map (fun s => s.id))
      have hdisj : List.Disjoint (st.allSuggestions.map (fun s => s.id))
          ((items.filter
            (fun it => !((st.allSuggestions.map (fun s => s.id)).contains it.id))).map
              (fun s => s.id)) := by
        intro a ha hmem
        obtain ⟨it, hit, rfl⟩ := List.mem_map.mp hmem
        have hflt := List.of_mem_filter hit
        rw [Bool.not_eq_true'] at hflt
        exact absurd ha (by simpa using hflt)
      have hall : ((st.allSuggestions ++ items.filter
          (fun it => !((st.allSuggestions.map (fun s => s.id)).contains it.id))).map
            (fun s => s.id)).Nodup := by
        rw [List.map_append]
        exact h1.append hnodup2 hdisj
      exact ⟨hall, ((List.perm_insertionSort suggLE _).map (fun s => s.id)).nodup_iff.mpr hall⟩

/-- C9, amended, witness: pushing one fresh, duplicate-free batch into the
empty generation-1 state. -/
theorem claim_C9_amended_witness :
    ((pushIfLatest 1 (convertCitiesToUnified [romeCity])
        { initState with currentSearchId := 1 }).allSuggestions.map
          (fun s => s.id)).Nodup ∧
    ((pushIfLatest 1 (convertCitiesToUnified [romeCity])
        { initState with currentSearchId := 1 }).suggestionsPub.map
          (fun s => s.id)).Nodup :=
  claim_C9_amended 1 (convertCitiesToUnified [romeCity])
    { initState with currentSearchId := 1 } (by decide) (by decide) (by decide)

/-- C4: stage gating.  In a run that stays current, stage 2 is entered
exactly when stage 1 contributed nothing to the accumulation, stage 3
exactly when stages 1–2 contributed nothing, stage 4 exactly when stages 1–3
contributed nothing; and when the stage-1 result (cached or fetched) holds 3
records, the stage-2 country fetch is never invoked nor called. -/
theorem claim_C4 (q : String) (o : StageOracle) (st : GlobalState) :
    (2 ∈ (afterStage4 q o st).invoked ↔ (afterStage1 q o st).allSuggestions = []) ∧
    (3 ∈ (afterStage4 q o st).invoked ↔ (afterStage2 q o st).allSuggestions = []) ∧
    (4 ∈ (afterStage4 q o st).invoked ↔ (afterStage3 q o st).allSuggestions = []) ∧
    (∀ data, stage1ResultOf q o st = StageResult.success data → data.length = 3 →
      2 ∉ (runSearch q o st).invoked ∧ 2 ∉ (runSearch q o st).netCalls) := by
  have hinv1 : (afterStage1 q o st).invoked = [1] := by
    rw [afterStage1, stage1Step_invoked]
    rfl
  have hpart : ∀ data, stage1ResultOf q o st = StageResult.success data → data.length = 3 →
      2 ∉ (runSearch q o st).invoked ∧ 2 ∉ (runSearch q o st).netCalls := by
    intro data hres hlen
    have hdata_ne : data.isEmpty = false := by
      cases data with
      | nil => simp at hlen
      | cons a l => rfl
    have hacc : (afterStage1 q o st).allSuggestions =
        (convertCitiesToUnified data).map (fun c => { c with validating := true }) := by
      rw [afterStage1]
      cases halo : alookup q st.cityApiCache with
      | some d =>
        have hd : d = data := by
          unfold stage1ResultOf at hres
          rw [halo] at hres
          exact (StageResult.success.inj hres)
        subst hd
        rw [stage1Step_hit_success q d o.cities1 (beginSearch st).2 (beginSearch st).1
          halo hdata_ne]
        exact pushIfLatest_fresh _ _ _ rfl rfl
      | none =>
        have hart : o.cities1 = StageResult.success data := by
          unfold stage1ResultOf at hres
          rw [halo] at hres
          exact hres
        rw [hart, stage1Step_miss_success q data (beginSearch st).2 (beginSearch st).1
          halo hdata_ne]
        exact pushIfLatest_fresh _ _ _ rfl rfl
    have e1f : ¬ ((afterStage1 q o st).allSuggestions.isEmpty = true) := by
      rw [hacc]
      cases data with
      | nil => simp at hlen
      | cons a l => simp [convertCitiesToUnified]
    have hA2 : afterStage2 q o st = afterStage1 q o st := by
      rw [afterStage2, if_neg e1f]
    have hA3 : afterStage3 q o st = afterStage1 q o st := by
      rw [afterStage3, hA2, if_neg e1f]
    have hA4 : afterStage4 q o st = afterStage1 q o st := by
      rw [afterStage4, hA3, if_neg e1f]
    constructor
    · rw [runSearch, finalizeSearch_invoked, hA4, hinv1]
      decide
    · rw [runSearch, finalizeSearch_netCalls, hA4, afterStage1]
      cases halo : alookup q st.cityApiCache with
      | some d =>
        rw [stage1Step_netCalls_hit q o.cities1 (beginSearch st).2 (beginSearch st).1 d halo]
        show (2 : ℕ) ∉ ([] : List ℕ)
        decide
      | none =>
        rw [stage1Step_netCalls_miss q o.cities1 (beginSearch st).2 (beginSearch st).1 halo]
        show (2 : ℕ) ∉ ([] : List ℕ) ++ [1]
        decide
  have hiffs : (2 ∈ (afterStage4 q o st).invoked ↔ (afterStage1 q o st).allSuggestions = []) ∧
      (3 ∈ (afterStage4 q o st).invoked ↔ (afterStage2 q o st).allSuggestions = []) ∧
      (4 ∈ (afterStage4 q o st).invoked ↔ (afterStage3 q o st).allSuggestions = []) := by
    by_cases e1 : ((afterStage1 q o st).allSuggestions.isEmpty = true)
    · have hA2 : afterStage2 q o st =
          stage2Step q o.countries2 (beginSearch st).2 (afterStage1 q o st) := by
        rw [afterStage2, if_pos e1]
      have hinv2 : (afterStage2 q o st).invoked = [1, 2] := by
        rw [hA2, stage2Step_invoked, hinv1]
        rfl
      have he1 : (afterStage1 q o st).allSuggestions = [] := List.isEmpty_iff.mp e1
      by_cases e2 : ((afterStage2 q o st).allSuggestions.isEmpty = true)
      · have hA3 : afterStage3 q o st =
            stage3Step q o.cities3 (beginSearch st).2 (afterStage2 q o st) := by
          rw [afterStage3, if_pos e2]
        have hinv3 : (afterStage3 q o st).invoked = [1, 2, 3] := by
          rw [hA3, stage3Step_invoked, hinv2]
          rfl
        have he2 : (afterStage2 q o st).allSuggestions = [] := List.isEmpty_iff.mp e2
        by_cases e3 : ((afterStage3 q o st).allSuggestions.isEmpty = true)
        · have hA4 : afterStage4 q o st =
              stage4Step q o.countries4 (beginSearch st).2 (afterStage3 q o st) := by
            rw [afterStage4, if_pos e3]
          have hinv4 : (afterStage4 q o st).invoked = [1, 2, 3, 4] := by
            rw [hA4, stage4Step_invoked, hinv3]
            rfl
          have he3 : (afterStage3 q o st).allSuggestions = [] := List.isEmpty_iff.mp e3
          rw [hinv4]
          exact ⟨iff_of_true (by decide) he1, iff_of_true (by decide) he2,
            iff_of_true (by decide) he3⟩
        · have hA4 : afterStage4 q o st = afterStage3 q o st := by
            rw [afterStage4, if_neg e3]
          have hne3 : (afterStage3 q o st).allSuggestions ≠ [] := by
            intro hcon
            exact e3 (by rw [hcon]; rfl)
          rw [hA4, hinv3]
          exact ⟨iff_of_true (by decide) he1, iff_of_true (by decide) he2,
            iff_of_false (by decide) hne3⟩
      · have hA3 : afterStage3 q o st = afterStage2 q o st := by
          rw [afterStage3, if_neg e2]
        have hA4 : afterStage4 q o st = afterStage2 q o st := by
          rw [afterStage4, hA3, if_neg e2]
        have hne2 : (afterStage2 q o st).allSuggestions ≠ [] := by
          intro hcon
          exact e2 (by rw [hcon]; rfl)
        have hne3 : (afterStage3 q o st).allSuggestions ≠ [] := by
          rw [hA3]
          exact hne2
        rw [hA4, hinv2]
        exact ⟨iff_of_true (by decide) he1, iff_of_false (by decide) hne2,
          iff_of_false (by decide) hne3⟩
    · have hA2 : afterStage2 q o st = afterStage1 q o st := by
        rw [afterStage2, if_neg e1]
      have hA3 : afterStage3 q o st = afterStage1 q o st := by
        rw [afterStage3, hA2, if_neg e1]
      have hA4 : afterStage4 q o st = afterStage1 q o st := by
        rw [afterStage4, hA3, if_neg e1]
      have hne1 : (afterStage1 q o st).allSuggestions ≠ [] := by
        intro hcon
        exact e1 (by rw [hcon]; rfl)
      have hne2 : (afterStage2 q o st).allSuggestions ≠ [] := by
        rw [hA2]
        exact hne1
      have hne3 : (afterStage3 q o st).allSuggestions ≠ [] := by
        rw [hA3]
        exact hne1
      rw [hA4, hinv1]
      exact ⟨iff_of_false (by decide) hne1, iff_of_false (by decide) hne2,
        iff_of_false (by decide) hne3⟩
  exact ⟨hiffs.1, hiffs.2.1, hiffs.2.2, hpart⟩

/-- C4, witness: the oracle whose stage 1 returns three cities — stage 2 is
neither invoked nor called. -/
theorem claim_C4_witness :
    2 ∉ (runSearch ("rome") oracleStage1Three initState).invoked ∧
    2 ∉ (runSearch ("rome") oracleStage1Three initState).netCalls :=
  (claim_C4 ("rome") oracleStage1Three initState).2.2.2
    [romeCity, { romeCity with id := 2 }, { romeCity with id := 3 }] rfl rfl

/-- C8, counterexample: for a query resolved only by the exact-city fallback
(stage 3), a second run with every cache warm from the first run still issues
the same three network calls — stages 1 and 2 cache only non-empty successful
responses and stages 3 and 4 have no cache at all. -/
theorem claim_C8_counterexample :
    (runSearch ("rome") oracleStage3Only initState).netCalls = [1, 2, 3] ∧
    (runSearch ("rome") oracleStage3Only
      (runSearch ("rome") oracleStage3Only initState)).netCalls = [1, 2, 3] := by
  constructor <;> rfl

/-- C8, amended: warm-cache idempotence holds for queries the prefix-city
stage resolves: when the first run fetches a non-empty stage-1 result on a
cache miss, a second identical run returns the identical candidate
accumulation with zero geo-client calls (the raw response is served from the
stage-1 cache and the later stages stay gated off). -/
theorem claim_C8_amended (q : String) (o : StageOracle) (st : GlobalState)
    (data : List CitySuggestion) (hmiss : alookup q st.cityApiCache = none)
    (hres : o.cities1 = StageResult.success data) (hne : data ≠ []) :
    (runSearch q o (runSearch q o st)).allSuggestions =
      (runSearch q o st).allSuggestions ∧
    (runSearch q o (runSearch q o st)).netCalls = [] ∧
    (runSearch q o st).netCalls = [1] := by
  have hdata_ne : data.isEmpty = false := by
    cases data with
    | nil => exact absurd rfl hne
    | cons a l => rfl
  have hitems_ne : ¬ ((((convertCitiesToUnified data).map
      (fun c => { c with validating := true })).isEmpty) = true) := by
    cases data with
    | nil => exact absurd rfl hne
    | cons a l => simp [convertCitiesToUnified]
  -- first run
  have hA1 : afterStage1 q o st =
      pushIfLatest (beginSearch st).2
        ((convertCitiesToUnified data).map (fun c => { c with validating := true }))
        { (beginSearch st).1 with
            invoked := (beginSearch st).1.invoked ++ [1]
            netCalls := (beginSearch st).1.netCalls ++ [1]
            cityApiCache := (q, data) :: (beginSearch st).1.cityApiCache } := by
    rw [afterStage1, hres]
    exact stage1Step_miss_success q data (beginSearch st).2 (beginSearch st).1 hmiss hdata_ne
  have hacc1 : (afterStage1 q o st).allSuggestions =
      (convertCitiesToUnified data).map (fun c => { c with validating := true }) := by
    rw [hA1]
    exact pushIfLatest_fresh _ _ _ rfl rfl
  have e1f : ¬ ((afterStage1 q o st).allSuggestions.isEmpty = true) := by
    rw [hacc1]
    exact hitems_ne
  have hA2 : afterStage2 q o st = afterStage1 q o st := by
    rw [afterStage2, if_neg e1f]
  have hA3 : afterStage3 q o st = afterStage1 q o st := by
    rw [afterStage3, hA2, if_neg e1f]
  have hA4 : afterStage4 q o st = afterStage1 q o st := by
    rw [afterStage4, hA3, if_neg e1f]
  have r1acc : (runSearch q o st).allSuggestions =
      (convertCitiesToUnified data).map (fun c => { c with validating := true }) := by
    rw [runSearch, finalizeSearch_allSuggestions, hA4, hacc1]
  have r1net : (runSearch q o st).netCalls = [1] := by
    rw [runSearch, finalizeSearch_netCalls, hA4, hA1, pushIfLatest_netCalls]
    rfl
  have r1cache : (runSearch q o st).cityApiCache = (q, data) :: st.cityApiCache := by
    rw [runSearch, finalizeSearch_cityApiCache, hA4, hA1, pushIfLatest_cityApiCache]
    rfl
  -- second run
  have hhit2 : alookup q (runSearch q o st).cityApiCache = some data := by
    rw [r1cache]
    exact alookup_cons_self q data st.cityApiCache
  have hA1' : afterStage1 q o (runSearch q o st) =
      pushIfLatest (beginSearch (runSearch q o st)).2
        ((convertCitiesToUnified data).map (fun c => { c with validating := true }))
        { (beginSearch (runSearch q o st)).1 with
            invoked := (beginSearch (runSearch q o st)).1.invoked ++ [1] } := by
    rw [afterStage1]
    exact stage1Step_hit_success q data o.cities1 (beginSearch (runSearch q o st)).2
      (beginSearch (runSearch q o st)).1 hhit2 hdata_ne
  have hacc1' : (afterStage1 q o (runSearch q o st)).allSuggestions =
      (convertCitiesToUnified data).map (fun c => { c with validating := true }) := by
    rw [hA1']
    exact pushIfLatest_fresh _ _ _ rfl rfl
  have e1f' : ¬ ((afterStage1 q o (runSearch q o st)).allSuggestions.isEmpty = true) := by
    rw [hacc1']
    exact hitems_ne
  have hA2' : afterStage2 q o (runSearch q o st) = afterStage1 q o (runSearch q o st) := by
    rw [afterStage2, if_neg e1f']
  have hA3' : afterStage3 q o (runSearch q o st) = afterStage1 q o (runSearch q o st) := by
    rw [afterStage3, hA2', if_neg e1f']
  have hA4' : afterStage4 q o (runSearch q o st) = afterStage1 q o (runSearch q o st) := by
    rw [afterStage4, hA3', if_neg e1f']
  refine ⟨?_, ?_, r1net⟩
  · rw [runSearch, finalizeSearch_allSuggestions, hA4', hacc1', r1acc]
  · rw [runSearch, finalizeSearch_netCalls, hA4', hA1', pushIfLatest_netCalls]
    rfl

/-- C8, amended, witness: the stage-1-resolved oracle on a cold cache. -/
theorem claim_C8_amended_witness :
    (runSearch ("rome") oracleStage1Three
        (runSearch ("rome") oracleStage1Three initState)).allSuggestions =
      (runSearch ("rome") oracleStage1Three initState).allSuggestions ∧
    (runSearch ("rome") oracleStage1Three
        (runSearch ("rome") oracleStage1Three initState)).netCalls = [] ∧
    (runSearch ("rome") oracleStage1Three initState).netCalls = [1] :=
  claim_C8_amended ("rome") oracleStage1Three initState
    [romeCity, { romeCity with id := 2 }, { romeCity with id := 3 }] rfl rfl (by simp)

/-- C2, counterexample: the claim quantifies over every city candidate, but a
candidate on the equator (latitude 0) satisfies all the listed response
conditions — complete body, coordinates matching exactly — while
`validateSuggestion` returns `false`, because the falsiness guard rejects the
zero coordinate before the fetch. -/
theorem claim_C2_counterexample :
    specCityValid cityCandEquator respEquator = true ∧
    validateSuggestion cityCandEquator (FetchOutcome.ok respEquator) = false := by
  constructor
  · simp [specCityValid, cityCandEquator, cityCand, respEquator, respFull]
    decide
  · have hreq : weatherRequestOf cityCandEquator = none := by
      simp [weatherRequestOf, cityCandEquator, cityCand, falsyNum]
    simp [validateSuggestion, hreq]

/-- C2, amended: for every city candidate whose coordinates are present and
non-zero (so the falsiness guard lets the fetch happen), a completed weather
response validates exactly under the claim's conditions: non-empty condition
list, numeric temperature, numeric response coordinates within 0.5° of the
candidate in both axes, and a non-empty name; in particular a response
missing `coord` never validates. -/
theorem claim_C2_amended (c : UnifiedSuggestion) (resp : WeatherResponse) (la lo : ℚ)
    (hc : c.type = SuggType.city) (hla : c.lat = some la) (hlo : c.lon = some lo)
    (h0a : la ≠ 0) (h0b : lo ≠ 0) :
    validateSuggestion c (FetchOutcome.ok resp) = specCityValid c resp := by
  have hf1 : falsyNum (some la) = false := by
    simp [falsyNum, h0a]
  have hf2 : falsyNum (some lo) = false := by
    simp [falsyNum, h0b]
  have hreq : weatherRequestOf c = some (WeatherQuery.byCoord la lo) := by
    simp [weatherRequestOf, hc, hla, hlo, hf1, hf2]
  obtain ⟨w, t, co, nm⟩ := resp
  rcases co with _ | ⟨rla, rlo⟩
  · simp [validateSuggestion, hreq, specCityValid, hc]
  · rcases w with _ | wl
    · simp [validateSuggestion, hreq, specCityValid, hc]
    · rcases t with _ | tv
      · simp [validateSuggestion, hreq, specCityValid, hc]
      · rcases nm with _ | n
        · simp [validateSuggestion, hreq, specCityValid, hc]
        · cases hw : wl.isEmpty with
          | true => simp [validateSuggestion, hreq, specCityValid, hc, hw, hla, hlo]
          | false =>
            cases hn : nonBlank n with
            | false => simp [validateSuggestion, hreq, specCityValid, hc, hw, hn, hla, hlo]
            | true =>
              simp only [validateSuggestion, hreq, specCityValid, hc, hw, hn, hla, hlo]
              simp only [decide_le_eq_not_decide_lt]
              simp

/-- C2, amended, witness: the 0.4°-drift response validates the (10, 20)
candidate. -/
theorem claim_C2_amended_witness :
    validateSuggestion cityCand (FetchOutcome.ok resp104) = specCityValid cityCand resp104 :=
  claim_C2_amended cityCand resp104 10 20 rfl rfl rfl (by norm_num) (by norm_num)

/-- C6, amended, witness: the concrete abort-then-ok oracle. -/
theorem claim_C6_amended_witness :
    2 ≤ (tryPersistentApiSearch oracleAbortThenOk zeroJitter zeroJitter).attemptsUsed ∧
    (tryPersistentApiSearch oracleAbortThenOk zeroJitter zeroJitter).attemptsUsed =
      (retryGo oracleAbortThenOk zeroJitter zeroJitter 2 2).attemptsUsed + 1 ∧
    (tryPersistentApiSearch oracleAbortThenOk zeroJitter zeroJitter).success =
      (retryGo oracleAbortThenOk zeroJitter zeroJitter 2 2).success ∧
    (tryPersistentApiSearch oracleAbortThenOk zeroJitter zeroJitter).data =
      (retryGo oracleAbortThenOk zeroJitter zeroJitter 2 2).data ∧
    (tryPersistentApiSearch oracleAbortThenOk zeroJitter zeroJitter).waits =
      min (2 ^ 1 * 300 + zeroJitter 1) 3000 ::
        (retryGo oracleAbortThenOk zeroJitter zeroJitter 2 2).waits :=
  claim_C6_amended oracleAbortThenOk zeroJitter zeroJitter (by decide)

end VueWeather
